import Mathlib

/-!
Verification development for the Splatfacto Gaussian-splatting trainer
(`run.py`): a shallow embedding of the `SplatfactoModel` refinement
machinery (densify / split / duplicate / cull / opacity reset), the
statistics tracker, checkpoint loading, the zero-visibility render
short-circuit, and the training loss, together with theorems about them.

Conventions of the embedding:
* tensors become lists (leading dimension = primitive axis);
* real scalars become `ℚ`; the transcendental / external numeric kernels
  the code calls (`torch.exp`, `torch.sigmoid`, `torch.logit`, quaternion
  normalisation, `quat_to_rotmat`, SSIM, image resize) are abstracted as a
  bundle `Kernels` of function parameters, so every theorem holds for every
  interpretation of those kernels;
* `torch.randn` becomes an explicit sample stream `rnd : ℕ → Vec3`;
* code that can raise (failed `assert`s, strict shape checks) returns
  `Option`, with `none` for the raising path;
* the optimizer-state surgery (`dup_in_all_optim`, `remove_from_all_optim`,
  zeroing of Adam moments) acts only on the external optimizer objects,
  never on the model state modelled here, and is therefore dropped from
  the embedding (the spec treats the optimizer as an external collaborator).
-/

/-- A 3-vector of rationals (positions, scales, colors). -/
abbrev Vec3 : Type := ℚ × ℚ × ℚ

/-- A quaternion (4 components). -/
abbrev Vec4 : Type := ℚ × ℚ × ℚ × ℚ

/-- A pixel: a list of channel values (3 for RGB, 4 for RGBA, 1 for masks). -/
abbrev Pixel : Type := List ℚ

/-- An image: rows of pixels, `[H, W, C]` layout. -/
abbrev Image : Type := List (List Pixel)

/-- External numeric kernels used by `run.py` but implemented outside it
(torch / gsplat / pytorch_msssim / torchvision).  They are parameters of the
embedding: all theorems hold for every interpretation. -/
structure Kernels where
  exp : ℚ → ℚ
  log : ℚ → ℚ
  sigmoid : ℚ → ℚ
  logit : ℚ → ℚ
  norm4 : Vec4 → ℚ
  quatToRot : Vec4 → Vec3 → Vec3
  ssim : Image → Image → ℚ
  resize : ℕ → Image → Image

/-- Componentwise `torch.exp` on a 3-vector. -/
def expV (e : Kernels) (v : Vec3) : Vec3 := (e.exp v.1, e.exp v.2.1, e.exp v.2.2)

/-- Componentwise `torch.log` on a 3-vector. -/
def logV (e : Kernels) (v : Vec3) : Vec3 := (e.log v.1, e.log v.2.1, e.log v.2.2)

/-- `.max(dim=-1).values` of a 3-vector: its largest component. -/
def maxAxis (v : Vec3) : ℚ := max v.1 (max v.2.1 v.2.2)

/-- `.amin(dim=-1)` of a 3-vector: its smallest component. -/
def minAxis (v : Vec3) : ℚ := min v.1 (min v.2.1 v.2.2)

/-- Componentwise product of two 3-vectors. -/
def vmul (a b : Vec3) : Vec3 := (a.1 * b.1, a.2.1 * b.2.1, a.2.2 * b.2.2)

/-- Componentwise sum of two 3-vectors. -/
def vadd (a b : Vec3) : Vec3 := (a.1 + b.1, a.2.1 + b.2.1, a.2.2 + b.2.2)

/-- A 3-vector divided by a scalar. -/
def vdivc (v : Vec3) (c : ℚ) : Vec3 := (v.1 / c, v.2.1 / c, v.2.2 / c)

/-- A quaternion divided by a scalar (used for `q / q.norm()`). -/
def qdivc (q : Vec4) (c : ℚ) : Vec4 := (q.1 / c, q.2.1 / c, q.2.2.1 / c, q.2.2.2 / c)

/-- Boolean-mask selection `t[mask]` along the leading axis. -/
def maskKeep {α : Type} : List Bool → List α → List α
  | true :: m, x :: xs => x :: maskKeep m xs
  | false :: m, _ :: xs => maskKeep m xs
  | _, _ => []

/-- Boolean-mask removal `t[~mask]` along the leading axis. -/
def maskDrop {α : Type} : List Bool → List α → List α
  | true :: m, _ :: xs => maskDrop m xs
  | false :: m, x :: xs => x :: maskDrop m xs
  | _, _ => []

/-- In-place masked assignment `t[mask] = f(t[mask])` along the leading axis. -/
def maskSet {α : Type} (f : α → α) : List Bool → List α → List α
  | true :: m, x :: xs => f x :: maskSet f m xs
  | false :: m, x :: xs => x :: maskSet f m xs
  | _, _ => []

/-- `mask.sum()`: number of `true` entries of a boolean mask. -/
def countTrue : List Bool → ℕ
  | [] => 0
  | true :: m => countTrue m + 1
  | false :: m => countTrue m

/-- Elementwise `|` of two boolean masks. -/
def orMask (a b : List Bool) : List Bool := List.zipWith or a b

/-- Elementwise `&` of two boolean masks. -/
def andMask (a b : List Bool) : List Bool := List.zipWith and a b

/-- `t.repeat(n, 1)` along the leading axis: `n` stacked copies of `t`. -/
def repeatN {α : Type} : ℕ → List α → List α
  | 0, _ => []
  | n + 1, xs => xs ++ repeatN n xs

/-- Ternary `List.zipWith`, for the masked in-place statistics updates. -/
def zipWith3 {α β γ δ : Type} (f : α → β → γ → δ) : List α → List β → List γ → List δ
  | a :: as, b :: bs, c :: cs => f a b c :: zipWith3 f as bs cs
  | _, _, _ => []

/-- `SplatfactoModelConfig` (the dataclass), with its default values.
Step-valued fields are `ℕ`, real-valued thresholds are `ℚ`. -/
structure SplatfactoModelConfig where
  warmup_length : ℕ := 500
  refine_every : ℕ := 100
  resolution_schedule : ℕ := 3000
  num_downscales : ℕ := 2
  cull_alpha_thresh : ℚ := 1 / 10
  cull_scale_thresh : ℚ := 1 / 2
  continue_cull_post_densification : Bool := true
  reset_alpha_every : ℕ := 30
  densify_grad_thresh : ℚ := 2 / 10000
  densify_size_thresh : ℚ := 1 / 100
  n_split_samples : ℕ := 2
  cull_screen_size : ℚ := 3 / 20
  split_screen_size : ℚ := 1 / 20
  stop_screen_size_at : ℕ := 4000
  ssim_lambda : ℚ := 1 / 5
  stop_split_at : ℕ := 15000
  use_scale_regularization : Bool := false
  max_gauss_ratio : ℚ := 10
deriving DecidableEq

/-- The six per-primitive parameter arrays of `self.gauss_params`
(the Primitive Store).  Index `i` refers to the same primitive in all six. -/
structure GaussParams where
  means : List Vec3
  scales : List Vec3
  quats : List Vec4
  features_dc : List Vec3
  features_rest : List (List Vec3)
  opacities : List ℚ
deriving DecidableEq

/-- All six arrays share leading dimension `n` (the alignment invariant). -/
def gaussAligned (g : GaussParams) (n : ℕ) : Prop :=
  g.means.length = n ∧ g.scales.length = n ∧ g.quats.length = n ∧
  g.features_dc.length = n ∧ g.features_rest.length = n ∧ g.opacities.length = n

instance (g : GaussParams) (n : ℕ) : Decidable (gaussAligned g n) := by
  unfold gaussAligned; infer_instance

/-- `torch.cat([a, b], dim=0)` fieldwise on the Primitive Store. -/
def catGauss (a b : GaussParams) : GaussParams :=
  { means := a.means ++ b.means
    scales := a.scales ++ b.scales
    quats := a.quats ++ b.quats
    features_dc := a.features_dc ++ b.features_dc
    features_rest := a.features_rest ++ b.features_rest
    opacities := a.opacities ++ b.opacities }

/-- `param[~culls]` fieldwise on the Primitive Store. -/
def filterGauss (culls : List Bool) (g : GaussParams) : GaussParams :=
  { means := maskDrop culls g.means
    scales := maskDrop culls g.scales
    quats := maskDrop culls g.quats
    features_dc := maskDrop culls g.features_dc
    features_rest := maskDrop culls g.features_rest
    opacities := maskDrop culls g.opacities }

/-- The mutable training state of a `SplatfactoModel` instance:
the step counter, the Primitive Store, the accumulated refinement
statistics, the last render size `(H, W)` and the last projected radii. -/
structure TrainState where
  step : ℕ
  gauss : GaussParams
  xys_grad_norm : Option (List ℚ)
  vis_counts : Option (List ℚ)
  max_2Dsize : Option (List ℚ)
  last_size : ℕ × ℕ
  radii : List ℚ
deriving DecidableEq

/-- `self.num_points`: current primitive count. -/
def numPoints (st : TrainState) : ℕ := st.gauss.means.length

/-- `SplatfactoModel.after_train` (statistics tracker).  `grads` is the list
of per-primitive 2D positional-gradient norms (`self.xys.grad.norm(dim=-1)`),
produced by the external autograd engine.  `none` models a failed `assert`. -/
def after_train (cfg : SplatfactoModelConfig) (st : TrainState) (grads : List ℚ)
    (step : ℕ) : Option TrainState :=
  if step ≠ st.step then none
  else if cfg.stop_split_at ≤ st.step then some st
  else
    let visible_mask := st.radii.map (fun r => decide (0 < r))
    let denom : ℚ := ((max st.last_size.1 st.last_size.2 : ℕ) : ℚ)
    let acc? : Option (List ℚ × List ℚ) :=
      match st.xys_grad_norm with
      | none => some (grads, grads.map (fun _ => (1 : ℚ)))
      | some gn =>
        match st.vis_counts with
        | none => none
        | some vc =>
          some (zipWith3 (fun g old vis => if vis then g + old else old) grads gn visible_mask,
                zipWith3 (fun _ old vis => if vis then old + 1 else old) grads vc visible_mask)
    match acc? with
    | none => none
    | some (gn', vc') =>
      let m2d0 := match st.max_2Dsize with
        | none => st.radii.map (fun _ => (0 : ℚ))
        | some m => m
      let m2d' := zipWith3 (fun old r vis => if vis then max old (r / denom) else old)
        m2d0 st.radii visible_mask
      some { st with xys_grad_norm := some gn', vis_counts := some vc', max_2Dsize := some m2d' }

/-- `SplatfactoModel.cull_gaussians`: removal mask = (sigmoid(opacity) below
`cull_alpha_thresh`) OR the extra mask OR — once past the first opacity-reset
interval — the size criterion; primitives matching the mask are dropped from
every field.  `none` models the `assert self.max_2Dsize is not None` raise. -/
def cull_gaussians (cfg : SplatfactoModelConfig) (e : Kernels) (st : TrainState)
    (extra_cull_mask : Option (List Bool)) : Option (TrainState × List Bool) :=
  let culls := st.gauss.opacities.map (fun o => decide (e.sigmoid o < cfg.cull_alpha_thresh))
  let culls := match extra_cull_mask with
    | some m => orMask culls m
    | none => culls
  let culls? : Option (List Bool) :=
    if cfg.refine_every * cfg.reset_alpha_every < st.step then
      let toobigs := st.gauss.scales.map
        (fun s => decide (cfg.cull_scale_thresh < maxAxis (expV e s)))
      if st.step < cfg.stop_screen_size_at then
        match st.max_2Dsize with
        | none => none
        | some m2d =>
          some (orMask culls (orMask toobigs (m2d.map (fun x => decide (cfg.cull_screen_size < x)))))
      else some (orMask culls toobigs)
    else some culls
  culls?.map (fun culls => ({ st with gauss := filterGauss culls st.gauss }, culls))

/-- The split shrink factor `size_fac = 1.6`. -/
def size_fac : ℚ := 8 / 5

/-- `torch.log(torch.exp(s) / size_fac)`: shrink a log-scale by `size_fac`. -/
def shrinkScale (e : Kernels) (s : Vec3) : Vec3 := logV e (vdivc (expV e s) size_fac)

/-- `SplatfactoModel.split_gaussians`: children of the masked primitives
(`samps` per parent), and the store with the parents' scales shrunk in place.
`rnd` is the `torch.randn` sample stream. -/
def split_gaussians (e : Kernels) (rnd : ℕ → Vec3) (g : GaussParams)
    (split_mask : List Bool) (samps : ℕ) : GaussParams × GaussParams :=
  let n_splits := countTrue split_mask
  let centered_samples := (List.range (samps * n_splits)).map rnd
  let scaled_samples := List.zipWith (fun s c => vmul (expV e s) c)
    (repeatN samps (maskKeep split_mask g.scales)) centered_samples
  let nquats := (maskKeep split_mask g.quats).map (fun q => qdivc q (e.norm4 q))
  let rotated_samples := List.zipWith (fun q s => e.quatToRot q s)
    (repeatN samps nquats) scaled_samples
  let new_means := List.zipWith vadd rotated_samples (repeatN samps (maskKeep split_mask g.means))
  let new_features_dc := repeatN samps (maskKeep split_mask g.features_dc)
  let new_features_rest := repeatN samps (maskKeep split_mask g.features_rest)
  let new_opacities := repeatN samps (maskKeep split_mask g.opacities)
  let new_scales := repeatN samps ((maskKeep split_mask g.scales).map (shrinkScale e))
  let new_quats := repeatN samps (maskKeep split_mask g.quats)
  ({ means := new_means, scales := new_scales, quats := new_quats,
     features_dc := new_features_dc, features_rest := new_features_rest,
     opacities := new_opacities },
   { g with scales := maskSet (shrinkScale e) split_mask g.scales })

/-- `SplatfactoModel.dup_gaussians`: verbatim copies of the masked primitives. -/
def dup_gaussians (g : GaussParams) (dup_mask : List Bool) : GaussParams :=
  { means := maskKeep dup_mask g.means
    scales := maskKeep dup_mask g.scales
    quats := maskKeep dup_mask g.quats
    features_dc := maskKeep dup_mask g.features_dc
    features_rest := maskKeep dup_mask g.features_rest
    opacities := maskKeep dup_mask g.opacities }

/-- `avg_grad_norm > densify_grad_thresh` where `avg_grad_norm =
(xys_grad_norm / vis_counts) * 0.5 * max(H, W)`. -/
def high_grads_mask (cfg : SplatfactoModelConfig) (gn vc : List ℚ)
    (last_size : ℕ × ℕ) : List Bool :=
  let avg := List.zipWith
    (fun g v => g / v * (1 / 2) * ((max last_size.1 last_size.2 : ℕ) : ℚ)) gn vc
  avg.map (fun a => decide (cfg.densify_grad_thresh < a))

/-- The split-selection mask of `refinement_after`: max axis of exponentiated
scale over the size threshold, OR (while the step is below the screen-size
cutoff) max 2D size over the split screen threshold — AND high gradient. -/
def densify_splits (cfg : SplatfactoModelConfig) (e : Kernels) (scales : List Vec3)
    (m2d : List ℚ) (step : ℕ) (high : List Bool) : List Bool :=
  let splits := scales.map (fun s => decide (cfg.densify_size_thresh < maxAxis (expV e s)))
  let splits :=
    if step < cfg.stop_screen_size_at then
      orMask splits (m2d.map (fun x => decide (cfg.split_screen_size < x)))
    else splits
  andMask splits high

/-- The duplicate-selection mask of `refinement_after`: max axis of
exponentiated scale at most the size threshold AND high gradient.
In the code this reads `self.scales` after `split_gaussians` has shrunk the
split parents in place, so it receives the post-shrink scales. -/
def densify_dups (cfg : SplatfactoModelConfig) (e : Kernels) (scales : List Vec3)
    (high : List Bool) : List Bool :=
  andMask (scales.map (fun s => decide (maxAxis (expV e s) ≤ cfg.densify_size_thresh))) high

/-- The pair (split mask, duplicate mask) exactly as `refinement_after`
computes them: `splits` from the pre-split scales, then `split_gaussians`
shrinks the split parents in place, then `dups` from the mutated scales. -/
def densify_masks (cfg : SplatfactoModelConfig) (e : Kernels) (rnd : ℕ → Vec3)
    (st : TrainState) (gn vc m2d : List ℚ) : List Bool × List Bool :=
  let high := high_grads_mask cfg gn vc st.last_size
  let splits := densify_splits cfg e st.gauss.scales m2d st.step high
  let dups := densify_dups cfg e
    ((split_gaussians e rnd st.gauss splits cfg.n_split_samples).2).scales high
  (splits, dups)

/-- The densification branch of `refinement_after`: split, duplicate, append,
extend `max_2Dsize` with zeros, then cull with the split parents marked via
the extra cull mask. -/
def densify_step (cfg : SplatfactoModelConfig) (e : Kernels) (rnd : ℕ → Vec3)
    (st : TrainState) (gn vc m2d : List ℚ) : Option TrainState :=
  let masks := densify_masks cfg e rnd st gn vc m2d
  let splits := masks.1
  let dups := masks.2
  let nsamps := cfg.n_split_samples
  let sg := split_gaussians e rnd st.gauss splits nsamps
  let split_params := sg.1
  let g1 := sg.2
  let dup_params := dup_gaussians g1 dups
  let g2 := catGauss (catGauss g1 split_params) dup_params
  let m2d2 := m2d ++ split_params.scales.map (fun _ => (0 : ℚ))
    ++ dup_params.scales.map (fun _ => (0 : ℚ))
  let splits_mask := splits ++ List.replicate (nsamps * countTrue splits + countTrue dups) false
  (cull_gaussians cfg e { st with gauss := g2, max_2Dsize := some m2d2 } (some splits_mask)).map
    Prod.fst

/-- The structural (densify / cull) part of `refinement_after`: densify when
below `stop_split_at` and outside the post-reset guard window, else cull when
past `stop_split_at` and configured to keep culling, else do nothing. -/
def refinement_structural (cfg : SplatfactoModelConfig) (e : Kernels) (rnd : ℕ → Vec3)
    (num_train_data : ℕ) (st : TrainState) : Option TrainState :=
  let reset_interval := cfg.reset_alpha_every * cfg.refine_every
  if st.step < cfg.stop_split_at ∧
      num_train_data + cfg.refine_every < st.step % reset_interval then
    match st.xys_grad_norm, st.vis_counts, st.max_2Dsize with
    | some gn, some vc, some m2d => densify_step cfg e rnd st gn vc m2d
    | _, _, _ => none
  else if cfg.stop_split_at ≤ st.step ∧ cfg.continue_cull_post_densification then
    (cull_gaussians cfg e st none).map Prod.fst
  else some st

/-- The opacity-reset clamp ceiling: `torch.logit(cull_alpha_thresh * 2.0)`. -/
def reset_logit_ceil (cfg : SplatfactoModelConfig) (e : Kernels) : ℚ :=
  e.logit (cfg.cull_alpha_thresh * 2)

/-- The opacity-reset block of `refinement_after`: when the step is below
`stop_split_at` and sits exactly one refine period after an opacity-reset
interval boundary, clamp every opacity logit to at most the reset ceiling
(`torch.clamp(x, max=c)` is `min x c`). -/
def maybe_reset_opacities (cfg : SplatfactoModelConfig) (e : Kernels)
    (st : TrainState) : TrainState :=
  if st.step < cfg.stop_split_at ∧
      st.step % (cfg.reset_alpha_every * cfg.refine_every) = cfg.refine_every then
    { st with gauss := { st.gauss with
        opacities := st.gauss.opacities.map (fun o => min o (reset_logit_ceil cfg e)) } }
  else st

/-- After any refinement event the accumulated statistics are cleared. -/
def clearStats (st : TrainState) : TrainState :=
  { st with xys_grad_norm := none, vis_counts := none, max_2Dsize := none }

/-- `SplatfactoModel.refinement_after` (the Density Controller): warm-up
early return, then the structural branch, then the opacity reset, then the
statistics reset.  `none` models a failed `assert`. -/
def refinement_after (cfg : SplatfactoModelConfig) (e : Kernels) (rnd : ℕ → Vec3)
    (num_train_data : ℕ) (st : TrainState) (step : ℕ) : Option TrainState :=
  if step ≠ st.step then none
  else if st.step ≤ cfg.warmup_length then some st
  else (refinement_structural cfg e rnd num_train_data st).map
    (fun st1 => clearStats (maybe_reset_opacities cfg e st1))

/-- A checkpoint: the full Primitive Store field set plus the step counter
at which it was saved. -/
structure Checkpoint where
  gauss : GaussParams
  saved_step : ℕ
deriving DecidableEq

/-- The resize loop of `load_state_dict`: every field reassigned to
`torch.zeros((newp,) + old_shape[1:])`.  The trailing shape of
`features_rest` is taken from the old parameter, as in the code. -/
def resize_zero (g : GaussParams) (newp : ℕ) : GaussParams :=
  { means := List.replicate newp ((0 : ℚ), (0 : ℚ), (0 : ℚ))
    scales := List.replicate newp ((0 : ℚ), (0 : ℚ), (0 : ℚ))
    quats := List.replicate newp ((0 : ℚ), (0 : ℚ), (0 : ℚ), (0 : ℚ))
    features_dc := List.replicate newp ((0 : ℚ), (0 : ℚ), (0 : ℚ))
    features_rest := List.replicate newp
      (List.replicate (g.features_rest.headD []).length ((0 : ℚ), (0 : ℚ), (0 : ℚ)))
    opacities := List.replicate newp (0 : ℚ) }

/-- Modelled from the spec: `torch.nn.Module.load_state_dict` of the parent
class (external to `run.py`) is a strict-shape assignment — "restored
structures are strict-shape assignments" — so it overwrites each field with
the checkpoint's values when the leading dimensions agree and raises
otherwise. -/
def strict_assign (g c : GaussParams) : Option GaussParams :=
  if g.means.length = c.means.length ∧ g.scales.length = c.scales.length ∧
      g.quats.length = c.quats.length ∧ g.features_dc.length = c.features_dc.length ∧
      g.features_rest.length = c.features_rest.length ∧
      g.opacities.length = c.opacities.length
  then some c else none

/-- `SplatfactoModel.load_state_dict`: set the step counter to the constant
30000, resize every field array to the checkpoint's primitive count filled
with zeros, then strict-assign the checkpoint's values.  The checkpoint's
saved step counter is never read. -/
def load_state_dict (st : TrainState) (ckpt : Checkpoint) : Option TrainState :=
  let st := { st with step := 30000 }
  let newp := ckpt.gauss.means.length
  let resized := resize_zero st.gauss newp
  (strict_assign resized ckpt.gauss).map (fun g => { st with gauss := g })

/-- The render outputs dictionary of `get_outputs`:
`rgb`, `depth`, `accumulation`, `background`. -/
structure RenderOutputs where
  rgb : List (List Vec3)
  depth : List (List ℚ)
  accumulation : List (List ℚ)
  background : Vec3
deriving DecidableEq

/-- The zero-visibility early return of `get_outputs`: background broadcast
to every pixel, depth constant at the sentinel 10, accumulation all zero. -/
def zero_visibility_outputs (background : Vec3) (H W : ℕ) : RenderOutputs :=
  { rgb := List.replicate H (List.replicate W background)
    depth := List.replicate H (List.replicate W (10 : ℚ))
    accumulation := List.replicate H (List.replicate W (0 : ℚ))
    background := background }

/-- The visibility branch of `get_outputs` after projection: when the
projected radii sum to zero, return the pure-background render before the
tile-intersection and compositing stages; otherwise continue with the
external rasterization pipeline, abstracted as `rest` (whose own asserts
may raise). -/
def get_outputs_after_projection (radii : List ℚ) (background : Vec3) (H W : ℕ)
    (rest : Option RenderOutputs) : Option RenderOutputs :=
  if radii.sum = 0 then some (zero_visibility_outputs background H W) else rest

/-- Number of channels of an image, `image.shape[2]`. -/
def imgChannels (img : Image) : ℕ := ((img.headD []).headD []).length

/-- Alpha-composite one RGBA pixel over a background color. -/
def alphaBlendPixel (bg : Vec3) (px : Pixel) : Pixel :=
  let a := px.getD 3 0
  [a * px.getD 0 0 + (1 - a) * bg.1,
   a * px.getD 1 0 + (1 - a) * bg.2.1,
   a * px.getD 2 0 + (1 - a) * bg.2.2]

/-- `SplatfactoModel.composite_with_background`: blend a 4-channel ground
truth over the render background, pass 3-channel images through. -/
def composite_with_background (img : Image) (bg : Vec3) : Image :=
  if imgChannels img = 4 then img.map (fun row => row.map (alphaBlendPixel bg)) else img

/-- `SplatfactoModel._get_downscale_factor`:
`2 ** max(num_downscales - step // resolution_schedule, 0)` in training mode,
else 1. -/
def get_downscale_factor (cfg : SplatfactoModelConfig) (training : Bool) (step : ℕ) : ℕ :=
  if training then
    2 ^ (max ((cfg.num_downscales : ℤ) - (step / cfg.resolution_schedule : ℕ)) 0).toNat
  else 1

/-- `SplatfactoModel._downscale_if_required`: resize through the external
torchvision kernel only when the factor exceeds 1. -/
def downscale_if_required (e : Kernels) (cfg : SplatfactoModelConfig)
    (training : Bool) (step : ℕ) (img : Image) : Image :=
  let d := get_downscale_factor cfg training step
  if 1 < d then e.resize d img else img

/-- `SplatfactoModel.get_gt_img` (the uint8-to-float conversion is dropped:
pixels are already rationals in `[0,1]` here). -/
def get_gt_img (e : Kernels) (cfg : SplatfactoModelConfig) (training : Bool)
    (step : ℕ) (image : Image) : Image :=
  downscale_if_required e cfg training step image

/-- `[H, W, C] * [H, W, 1]` broadcast product used to zero masked pixels. -/
def maskImage (img msk : Image) : Image :=
  List.zipWith (fun row mrow =>
    List.zipWith (fun px mpx => px.map (fun c => c * mpx.getD 0 0)) row mrow) img msk

/-- All scalar entries of `|a - b|`, flattened (torch `.mean()` averages over
every element). -/
def imgAbsDiffElems (a b : Image) : List ℚ :=
  (List.zipWith (fun ra rb =>
    (List.zipWith (fun pa pb => List.zipWith (fun x y => |x - y|) pa pb) ra rb).flatten) a b).flatten

/-- `.mean()` of a flat list of scalars. -/
def meanQ (l : List ℚ) : ℚ := l.sum / l.length

/-- `torch.abs(gt - pred).mean()`: mean absolute pixel difference. -/
def l1_mean (a b : Image) : ℚ := meanQ (imgAbsDiffElems a b)

/-- The scale-regularization term of `get_loss_dict`: only when enabled and
`step % 10 == 0`, `0.1 * mean(max(max_axis/min_axis, max_gauss_ratio) -
max_gauss_ratio)` over the exponentiated scales, else zero. -/
def scale_reg_term (cfg : SplatfactoModelConfig) (e : Kernels) (step : ℕ)
    (scales : List Vec3) : ℚ :=
  if cfg.use_scale_regularization ∧ step % 10 = 0 then
    (1 / 10) * meanQ (scales.map (fun s =>
      max (maxAxis (expV e s) / minAxis (expV e s)) ( SplatfactoModelConfig.max_gauss_ratio cfg)
        - SplatfactoModelConfig.max_gauss_ratio cfg))
  else 0

/-- `SplatfactoModel.get_loss_dict`: returns `(main_loss, scale_reg)`.
`none` models the mask shape `assert` raising. -/
def get_loss_dict (cfg : SplatfactoModelConfig) (e : Kernels) (training : Bool)
    (step : ℕ) (scales : List Vec3) (rgb : Image) (background : Vec3)
    (image : Image) (mask : Option Image) : Option (ℚ × ℚ) :=
  let gt_img := composite_with_background (get_gt_img e cfg training step image) background
  let pred_img := rgb
  let imgs? : Option (Image × Image) :=
    match mask with
    | none => some (gt_img, pred_img)
    | some m =>
      let m := downscale_if_required e cfg training step m
      if m.length = gt_img.length ∧ gt_img.length = pred_img.length then
        some (maskImage gt_img m, maskImage pred_img m)
      else none
  imgs?.map (fun p =>
    let Ll1 := l1_mean p.1 p.2
    let simloss := 1 - e.ssim p.1 p.2
    ((1 - cfg.ssim_lambda) * Ll1 + cfg.ssim_lambda * simloss,
     scale_reg_term cfg e step scales))

/-! ### Toolkit lemmas about the mask / repeat primitives -/

theorem countTrue_append (a b : List Bool) :
    countTrue (a ++ b) = countTrue a + countTrue b := by
  induction a with
  | nil => simp [countTrue]
  | cons x a ih => cases x <;> simp [countTrue, ih] <;> omega

theorem countTrue_replicate_false (n : ℕ) :
    countTrue (List.replicate n false) = 0 := by
  induction n with
  | zero => rfl
  | succ n ih => simpa [List.replicate, countTrue] using ih

theorem countTrue_le_length (m : List Bool) : countTrue m ≤ m.length := by
  induction m with
  | nil => simp [countTrue]
  | cons b m ih => cases b <;> simp [countTrue] <;> omega

theorem maskKeep_length {α : Type} (m : List Bool) (xs : List α)
    (h : m.length = xs.length) : (maskKeep m xs).length = countTrue m := by
  induction m generalizing xs with
  | nil => cases xs <;> simp_all [maskKeep, countTrue]
  | cons b m ih =>
    cases xs with
    | nil => simp at h
    | cons x xs => cases b <;> simp [maskKeep, countTrue, ih xs (by simpa using h)]

theorem maskDrop_length_add {α : Type} (m : List Bool) (xs : List α)
    (h : m.length = xs.length) : (maskDrop m xs).length + countTrue m = xs.length := by
  induction m generalizing xs with
  | nil => cases xs <;> simp_all [maskDrop, countTrue]
  | cons b m ih =>
    cases xs with
    | nil => simp at h
    | cons x xs =>
      cases b <;> simp [maskDrop, countTrue] <;>
        have := ih xs (by simpa using h) <;> omega

theorem maskDrop_append {α : Type} (m1 m2 : List Bool) (xs ys : List α)
    (h : m1.length = xs.length) :
    maskDrop (m1 ++ m2) (xs ++ ys) = maskDrop m1 xs ++ maskDrop m2 ys := by
  induction m1 generalizing xs with
  | nil => cases xs <;> simp_all [maskDrop]
  | cons b m ih =>
    cases xs with
    | nil => simp at h
    | cons x xs => cases b <;> simp [maskDrop, ih xs (by simpa using h)]

theorem maskDrop_replicate_false {α : Type} (xs : List α) :
    maskDrop (List.replicate xs.length false) xs = xs := by
  induction xs with
  | nil => rfl
  | cons x xs ih => simpa [List.replicate, maskDrop] using ih

theorem maskDrop_sublist {α : Type} (m : List Bool) (xs : List α) :
    (maskDrop m xs).Sublist xs := by
  induction m generalizing xs with
  | nil => cases xs <;> simp [maskDrop]
  | cons b m ih =>
    cases xs with
    | nil => simp [maskDrop]
    | cons x xs =>
      cases b
      · exact (ih xs).cons₂ x
      · exact (ih xs).cons x

theorem repeatN_length {α : Type} (n : ℕ) (xs : List α) :
    (repeatN n xs).length = n * xs.length := by
  induction n with
  | zero => simp [repeatN]
  | succ n ih => simp [repeatN, ih]; ring

theorem mem_of_mem_maskKeep {α : Type} {a : α} {m : List Bool} {xs : List α}
    (h : a ∈ maskKeep m xs) : a ∈ xs := by
  induction m generalizing xs with
  | nil => cases xs <;> simp_all [maskKeep]
  | cons b m ih =>
    cases xs with
    | nil => simp [maskKeep] at h
    | cons x xs =>
      cases b with
      | true =>
        rcases (by simpa [maskKeep] using h : a = x ∨ a ∈ maskKeep m xs) with h' | h'
        · simp [h']
        · exact List.mem_cons_of_mem x (ih h')
      | false => exact List.mem_cons_of_mem x (ih (by simpa [maskKeep] using h))

theorem mem_of_mem_repeatN {α : Type} {a : α} {n : ℕ} {xs : List α}
    (h : a ∈ repeatN n xs) : a ∈ xs := by
  induction n with
  | zero => simp [repeatN] at h
  | succ n ih =>
    rcases (by simpa [repeatN] using h : a ∈ xs ∨ a ∈ repeatN n xs) with h' | h'
    · exact h'
    · exact ih h'

theorem mem_of_mem_maskSet {α : Type} {a : α} {f : α → α} {m : List Bool} {xs : List α}
    (h : a ∈ maskSet f m xs) : a ∈ xs ∨ ∃ x ∈ xs, a = f x := by
  induction m generalizing xs with
  | nil => cases xs <;> simp_all [maskSet]
  | cons b m ih =>
    cases xs with
    | nil => simp [maskSet] at h
    | cons x xs =>
      cases b with
      | true =>
        rcases (by simpa [maskSet] using h : a = f x ∨ a ∈ maskSet f m xs) with h' | h'
        · exact Or.inr ⟨x, by simp, h'⟩
        · rcases ih h' with h'' | ⟨y, hy, hfy⟩
          · exact Or.inl (List.mem_cons_of_mem x h'')
          · exact Or.inr ⟨y, List.mem_cons_of_mem x hy, hfy⟩
      | false =>
        rcases (by simpa [maskSet] using h : a = x ∨ a ∈ maskSet f m xs) with h' | h'
        · exact Or.inl (by simp [h'])
        · rcases ih h' with h'' | ⟨y, hy, hfy⟩
          · exact Or.inl (List.mem_cons_of_mem x h'')
          · exact Or.inr ⟨y, List.mem_cons_of_mem x hy, hfy⟩

theorem maskSet_length {α : Type} (f : α → α) (m : List Bool) (xs : List α) :
    (maskSet f m xs).length = min m.length xs.length := by
  induction m generalizing xs with
  | nil => cases xs <;> simp [maskSet]
  | cons b m ih =>
    cases xs with
    | nil => simp [maskSet]
    | cons x xs => cases b <;> simp [maskSet, ih xs] <;> omega

theorem map_eq_replicate_false {α : Type} (p : α → Bool) (xs : List α)
    (h : ∀ a ∈ xs, p a = false) : xs.map p = List.replicate xs.length false := by
  induction xs with
  | nil => rfl
  | cons x xs ih =>
    simp [List.replicate, h x (by simp), ih (fun a ha => h a (List.mem_cons_of_mem x ha))]

theorem orMask_replicate_false_left (m : List Bool) (n : ℕ) (h : m.length = n) :
    orMask (List.replicate n false) m = m := by
  induction m generalizing n with
  | nil => simp [orMask]
  | cons b m ih =>
    cases n with
    | zero => simp at h
    | succ n => simpa [orMask, List.replicate] using ih n (by simpa using h)

theorem orMask_replicate_false_right (m : List Bool) (n : ℕ) (h : m.length = n) :
    orMask m (List.replicate n false) = m := by
  induction m generalizing n with
  | nil => simp [orMask]
  | cons b m ih =>
    cases n with
    | zero => simp at h
    | succ n => simpa [orMask, List.replicate] using ih n (by simpa using h)

theorem orMask_length (a b : List Bool) :
    (orMask a b).length = min a.length b.length := List.length_zipWith ..

theorem andMask_length (a b : List Bool) :
    (andMask a b).length = min a.length b.length := List.length_zipWith ..

theorem countTrue_append_replicate_false (m : List Bool) (n : ℕ) :
    countTrue (m ++ List.replicate n false) = countTrue m := by
  simp [countTrue_append, countTrue_replicate_false]

/-! ### Concrete fixtures for evaluating the embedding on explicit inputs -/

/-- A concrete computable interpretation of the external kernels, used only
to evaluate the embedding on explicit inputs (the claim theorems hold for
every interpretation). -/
def kid : Kernels :=
  { exp := id, log := id, sigmoid := id, logit := id,
    norm4 := fun _ => 1, quatToRot := fun _ v => v,
    ssim := fun _ _ => 0, resize := fun _ img => img }

/-- A concrete `torch.randn` stream. -/
def rnd0 : ℕ → Vec3 := fun _ => ((0 : ℚ), 0, 0)

/-- The default configuration values of the dataclass. -/
def cfg0 : SplatfactoModelConfig := {}

/-- A one-primitive store. -/
def gW : GaussParams :=
  { means := [((0 : ℚ), 0, 0)], scales := [((0 : ℚ), 0, 0)],
    quats := [((1 : ℚ), 0, 0, 0)], features_dc := [((0 : ℚ), 0, 0)],
    features_rest := [[]], opacities := [(0 : ℚ)] }

/-- A two-primitive store. -/
def g2W : GaussParams :=
  { means := [((1 : ℚ), 0, 0), ((2 : ℚ), 0, 0)],
    scales := [((0 : ℚ), 0, 0), ((0 : ℚ), 0, 0)],
    quats := [((1 : ℚ), 0, 0, 0), ((1 : ℚ), 0, 0, 0)],
    features_dc := [((0 : ℚ), 0, 0), ((0 : ℚ), 0, 0)],
    features_rest := [[], []], opacities := [(3 : ℚ), (4 : ℚ)] }

/-- A warm-up-phase training state (step 100). -/
def stW : TrainState :=
  { step := 100, gauss := gW, xys_grad_norm := none, vis_counts := none,
    max_2Dsize := none, last_size := (4, 4), radii := [(1 : ℚ)] }

/-- A post-refinement training state (step 15000). -/
def stPost : TrainState :=
  { step := 15000, gauss := gW, xys_grad_norm := none, vis_counts := none,
    max_2Dsize := none, last_size := (4, 4), radii := [(1 : ℚ)] }

/-- A two-primitive checkpoint with an arbitrary saved step counter. -/
def ckptW : Checkpoint := { gauss := g2W, saved_step := 1234 }

/-! ### Claim theorems -/

/-- C2: for every training step with `step <= warmup_length`, invoking the
refinement callback leaves the training state — in particular the primitive
count and all six parameter arrays — completely unchanged: it returns the
input state with no split, duplicate, cull or opacity reset. -/
theorem refinement_after_warmup_noop (cfg : SplatfactoModelConfig) (e : Kernels)
    (rnd : ℕ → Vec3) (num_train_data : ℕ) (st : TrainState)
    (h : st.step ≤ cfg.warmup_length) :
    refinement_after cfg e rnd num_train_data st st.step = some st := by
  simp [refinement_after, h]

/-- Witness for C2 at a concrete warm-up state (step 100, warmup 500). -/
theorem refinement_after_warmup_noop_w :
    stW.step ≤ cfg0.warmup_length ∧
      refinement_after cfg0 kid rnd0 10 stW stW.step = some stW :=
  ⟨by decide, refinement_after_warmup_noop cfg0 kid rnd0 10 stW (by decide)⟩

/-- C10: for every training step with `step >= stop_split_at`, the
statistics-update callback `after_train` returns immediately with the state
unchanged — the gradient-norm accumulator, the visibility counts and the max
screen-size buffer are all left exactly as they were. -/
theorem after_train_stops_at_stop_split (cfg : SplatfactoModelConfig)
    (st : TrainState) (grads : List ℚ) (h : cfg.stop_split_at ≤ st.step) :
    after_train cfg st grads st.step = some st := by
  simp [after_train, h]

/-- Witness for C10 at a concrete post-refinement state (step 15000). -/
theorem after_train_stops_at_stop_split_w :
    cfg0.stop_split_at ≤ stPost.step ∧
      after_train cfg0 stPost [(5 : ℚ)] stPost.step = some stPost :=
  ⟨by decide, after_train_stops_at_stop_split cfg0 stPost [(5 : ℚ)] (by decide)⟩

/-- C9: `load_state_dict` sets the model's step counter to the constant
30000 for every checkpoint, regardless of the step at which the checkpoint
was saved; the saved counter is never restored. -/
theorem load_state_dict_sets_step_30000 (st : TrainState) (ckpt : Checkpoint)
    (st' : TrainState) (h : load_state_dict st ckpt = some st') :
    st'.step = 30000 := by
  simp only [load_state_dict, Option.map_eq_some'] at h
  obtain ⟨g, -, rfl⟩ := h
  rfl

/-- Witness for C9: loading a concrete checkpoint saved at step 1234 into a
model sitting at step 100 yields step 30000. -/
theorem load_state_dict_sets_step_30000_w :
    load_state_dict stW ckptW = some { stW with step := 30000, gauss := g2W } ∧
      ({ stW with step := 30000, gauss := g2W } : TrainState).step = 30000 :=
  ⟨by decide,
   load_state_dict_sets_step_30000 stW ckptW { stW with step := 30000, gauss := g2W }
     (by decide)⟩

/-- C7: loading a checkpoint whose primitive count `n` differs from the live
model's count resizes every field array (zero-filled) to leading dimension
`n` and then overwrites it with the checkpoint's values: the load succeeds,
the resulting field set equals the checkpoint's exactly, and the primitive
count becomes `n`. -/
theorem load_state_dict_round_trip (st : TrainState) (ckpt : Checkpoint) (n : ℕ)
    (hal : gaussAligned ckpt.gauss n) (hne : numPoints st ≠ n) :
    load_state_dict st ckpt = some { st with step := 30000, gauss := ckpt.gauss } ∧
      numPoints { st with step := 30000, gauss := ckpt.gauss } = n := by
  obtain ⟨h1, h2, h3, h4, h5, h6⟩ := hal
  refine ⟨?_, by simpa [numPoints] using h1⟩
  simp [load_state_dict, resize_zero, strict_assign, h1, h2, h3, h4, h5, h6]

/-- Witness for C7: loading the two-primitive checkpoint into the
one-primitive model reproduces the checkpoint's fields and count 2. -/
theorem load_state_dict_round_trip_w :
    gaussAligned ckptW.gauss 2 ∧ numPoints stW ≠ 2 ∧
      load_state_dict stW ckptW = some { stW with step := 30000, gauss := ckptW.gauss } ∧
      numPoints { stW with step := 30000, gauss := ckptW.gauss } = 2 :=
  ⟨by decide, by decide,
   load_state_dict_round_trip stW ckptW 2 (by decide) (by decide)⟩

/-- C6: when every projected radius is zero, `get_outputs` does not raise and
short-circuits before the compositing stage: the color image is the
background color at every pixel, the depth image is the sentinel 10 at every
pixel, and the accumulation image is zero at every pixel, whatever the rest
of the pipeline would have produced. -/
theorem get_outputs_zero_radii_background (radii : List ℚ) (bg : Vec3)
    (H W : ℕ) (rest : Option RenderOutputs) (h : ∀ r ∈ radii, r = 0) :
    get_outputs_after_projection radii bg H W rest
        = some (zero_visibility_outputs bg H W) ∧
      (∀ row ∈ (zero_visibility_outputs bg H W).rgb, ∀ px ∈ row, px = bg) ∧
      (∀ row ∈ (zero_visibility_outputs bg H W).depth, ∀ d ∈ row, d = 10) ∧
      (∀ row ∈ (zero_visibility_outputs bg H W).accumulation, ∀ a ∈ row, a = 0) := by
  refine ⟨by simp [get_outputs_after_projection, List.sum_eq_zero h], ?_, ?_, ?_⟩ <;>
    · intro row hrow x hx
      rw [List.eq_of_mem_replicate hrow] at hx
      exact List.eq_of_mem_replicate hx

/-- Witness for C6 at a concrete all-zero radii render (2 primitives, 2×2
image, background (1, 0, 0)). -/
theorem get_outputs_zero_radii_background_w :
    get_outputs_after_projection [(0 : ℚ), 0] ((1 : ℚ), 0, 0) 2 2 none
        = some (zero_visibility_outputs ((1 : ℚ), 0, 0) 2 2) ∧
      (∀ row ∈ (zero_visibility_outputs ((1 : ℚ), 0, 0) 2 2).rgb, ∀ px ∈ row,
        px = ((1 : ℚ), 0, 0)) :=
  ⟨(get_outputs_zero_radii_background [(0 : ℚ), 0] ((1 : ℚ), 0, 0) 2 2 none
      (by decide)).1,
   (get_outputs_zero_radii_background [(0 : ℚ), 0] ((1 : ℚ), 0, 0) 2 2 none
      (by decide)).2.1⟩

/-- A warm-up-phase state (step 100 = refine_every) with an opacity logit
above the reset ceiling. -/
def stC5 : TrainState :=
  { step := 100, gauss := { gW with opacities := [(1 : ℚ)] },
    xys_grad_norm := none, vis_counts := none, max_2Dsize := none,
    last_size := (4, 4), radii := [(1 : ℚ)] }

/-- An active-phase state (step 3100 = reset_interval + refine_every) with
one opacity above and one below the reset ceiling. -/
def stC5W : TrainState :=
  { step := 3100,
    gauss := { means := [((0 : ℚ), 0, 0), ((0 : ℚ), 0, 0)],
               scales := [((0 : ℚ), 0, 0), ((0 : ℚ), 0, 0)],
               quats := [((1 : ℚ), 0, 0, 0), ((1 : ℚ), 0, 0, 0)],
               features_dc := [((0 : ℚ), 0, 0), ((0 : ℚ), 0, 0)],
               features_rest := [[], []], opacities := [(2 : ℚ), (1 : ℚ) / 10] },
    xys_grad_norm := none, vis_counts := none, max_2Dsize := none,
    last_size := (4, 4), radii := [(1 : ℚ), (1 : ℚ)] }

/-- C5 counterexample: at step 100 (with the default configuration,
`100 % (reset_alpha_every * refine_every) = refine_every` and
`100 < stop_split_at`, so the claim's condition for the opacity reset
holds), the refinement callback returns with the state unchanged — an
opacity logit strictly above the clamp ceiling survives — because step 100
is still inside the warm-up window.  The reset is therefore not performed
"exactly" at the claimed steps. -/
theorem opacity_reset_cex :
    (stC5.step % (cfg0.reset_alpha_every * cfg0.refine_every) = cfg0.refine_every ∧
      stC5.step < cfg0.stop_split_at) ∧
      refinement_after cfg0 kid rnd0 10 stC5 stC5.step = some stC5 ∧
      ∃ o ∈ stC5.gauss.opacities, reset_logit_ceil cfg0 kid < o := by
  refine ⟨by decide, by decide, ⟨1, by decide, ?_⟩⟩
  norm_num [reset_logit_ceil, cfg0, kid, stC5]

/-- C5 amended: past warm-up, the opacity reset block runs exactly at steps
with `step % (reset_alpha_every * refine_every) == refine_every` and
`step < stop_split_at`; when it runs it clamps every opacity logit to at
most `logit(2 * cull_alpha_thresh)`; the clamp is idempotent; opacities
already at or below the ceiling are left unchanged; and at warm-up steps
(even those meeting the modular condition) the callback performs no reset
at all. -/
theorem opacity_reset_amended (cfg : SplatfactoModelConfig) (e : Kernels)
    (st : TrainState) :
    (st.step < cfg.stop_split_at ∧
        st.step % (cfg.reset_alpha_every * cfg.refine_every) = cfg.refine_every →
      (maybe_reset_opacities cfg e st).gauss.opacities
          = st.gauss.opacities.map (fun o => min o (reset_logit_ceil cfg e)) ∧
        ∀ o' ∈ (maybe_reset_opacities cfg e st).gauss.opacities,
          o' ≤ reset_logit_ceil cfg e) ∧
    (¬(st.step < cfg.stop_split_at ∧
        st.step % (cfg.reset_alpha_every * cfg.refine_every) = cfg.refine_every) →
      maybe_reset_opacities cfg e st = st) ∧
    maybe_reset_opacities cfg e (maybe_reset_opacities cfg e st)
        = maybe_reset_opacities cfg e st ∧
    ((∀ o ∈ st.gauss.opacities, o ≤ reset_logit_ceil cfg e) →
      maybe_reset_opacities cfg e st = st) ∧
    (∀ rnd num_train_data, st.step ≤ cfg.warmup_length →
      refinement_after cfg e rnd num_train_data st st.step = some st) := by
  refine ⟨?_, ?_, ?_, ?_, ?_⟩
  · intro h
    refine ⟨by simp [maybe_reset_opacities, h], ?_⟩
    intro o' ho'
    simp only [maybe_reset_opacities, if_pos h, List.mem_map] at ho'
    obtain ⟨o, -, rfl⟩ := ho'
    exact min_le_right ..
  · intro h
    simp [maybe_reset_opacities, h]
  · by_cases h : st.step < cfg.stop_split_at ∧
      st.step % (cfg.reset_alpha_every * cfg.refine_every) = cfg.refine_every
    · simp only [maybe_reset_opacities, if_pos h, List.map_map]
      congr 2
      exact List.map_congr_left (fun o _ => by simp [Function.comp, min_assoc])
    · simp [maybe_reset_opacities, h]
  · intro hle
    by_cases h : st.step < cfg.stop_split_at ∧
      st.step % (cfg.reset_alpha_every * cfg.refine_every) = cfg.refine_every
    · simp only [maybe_reset_opacities, if_pos h]
      have : st.gauss.opacities.map (fun o => min o (reset_logit_ceil cfg e))
          = st.gauss.opacities := by
        rw [List.map_congr_left (fun o ho => min_eq_left (hle o ho))]
        exact List.map_id _
      simp [this]
    · simp [maybe_reset_opacities, h]
  · intro rnd num_train_data h
    simp [refinement_after, h]

/-- Witness for the amended C5: at step 3100 the clamp applies (and caps the
opacity 2 while keeping 1/10), it is idempotent, at step 15000 the condition
fails so nothing changes, below-ceiling opacities are untouched, and at the
warm-up step 100 the callback is a no-op. -/
theorem opacity_reset_amended_w :
    (maybe_reset_opacities cfg0 kid stC5W).gauss.opacities
        = stC5W.gauss.opacities.map (fun o => min o (reset_logit_ceil cfg0 kid)) ∧
      maybe_reset_opacities cfg0 kid (maybe_reset_opacities cfg0 kid stC5W)
        = maybe_reset_opacities cfg0 kid stC5W ∧
      maybe_reset_opacities cfg0 kid stPost = stPost ∧
      maybe_reset_opacities cfg0 kid stW = stW ∧
      refinement_after cfg0 kid rnd0 10 stW stW.step = some stW :=
  ⟨((opacity_reset_amended cfg0 kid stC5W).1 (by refine ⟨by decide, by decide⟩)).1,
   (opacity_reset_amended cfg0 kid stC5W).2.2.1,
   (opacity_reset_amended cfg0 kid stPost).2.1 (by decide),
   (opacity_reset_amended cfg0 kid stW).2.2.2.1
     (by intro o ho; simp [stW, gW] at ho; norm_num [ho, reset_logit_ceil, cfg0, kid]),
   (opacity_reset_amended cfg0 kid stW).2.2.2.2 rnd0 10 (by decide)⟩

/-- C8: for a mask-free batch with a 3-channel ground truth at full
resolution, the main training loss equals
`(1 - ssim_lambda) * mean|gt - pred| + ssim_lambda * (1 - ssim(gt, pred))`;
the scale-regularization term is zero unless regularization is enabled and
the step is a multiple of 10; and even then it is zero when no primitive's
max/min exponentiated axis-scale ratio exceeds `max_gauss_ratio` (only
exceeding primitives are penalized). -/
theorem get_loss_dict_spec (cfg : SplatfactoModelConfig) (e : Kernels)
    (training : Bool) (step : ℕ) (scales : List Vec3) (rgb : Image) (bg : Vec3)
    (image : Image) (hch : imgChannels image ≠ 4)
    (hd : get_downscale_factor cfg training step = 1) :
    get_loss_dict cfg e training step scales rgb bg image none
        = some ((1 - cfg.ssim_lambda) * l1_mean image rgb
            + cfg.ssim_lambda * (1 - e.ssim image rgb),
          scale_reg_term cfg e step scales) ∧
      (¬(cfg.use_scale_regularization ∧ step % 10 = 0) →
        scale_reg_term cfg e step scales = 0) ∧
      (cfg.use_scale_regularization ∧ step % 10 = 0 ∧
          (∀ s ∈ scales, maxAxis (expV e s) / minAxis (expV e s)
            ≤ SplatfactoModelConfig.max_gauss_ratio cfg) →
        scale_reg_term cfg e step scales = 0) := by
  refine ⟨?_, ?_, ?_⟩
  · simp [get_loss_dict, get_gt_img, downscale_if_required, hd,
      composite_with_background, hch]
  · intro h
    simp [scale_reg_term, h]
  · rintro ⟨h1, h2, h3⟩
    have hsum : (scales.map (fun s =>
        max (maxAxis (expV e s) / minAxis (expV e s))
          ( SplatfactoModelConfig.max_gauss_ratio cfg)
          - SplatfactoModelConfig.max_gauss_ratio cfg)).sum = 0 := by
      refine List.sum_eq_zero ?_
      intro x hx
      obtain ⟨s, hs, rfl⟩ := List.mem_map.1 hx
      rw [max_eq_right (h3 s hs)]
      ring
    simp [scale_reg_term, h1, h2, meanQ, hsum]

/-- A configuration with scale regularization enabled. -/
def cfgReg : SplatfactoModelConfig := { cfg0 with use_scale_regularization := true }

/-- A 1×1 RGB image with pixel (1, 0, 0). -/
def img0 : Image := [[[(1 : ℚ), 0, 0]]]

/-- A 1×1 RGB image with pixel (0, 0, 0). -/
def rgb0 : Image := [[[(0 : ℚ), 0, 0]]]

/-- Witness for C8 at a concrete 1×1 render in evaluation mode: the loss
pair, the vanishing regularizer with regularization disabled, and the
vanishing regularizer with regularization enabled but no primitive beyond
the ratio threshold. -/
theorem get_loss_dict_spec_w :
    get_loss_dict cfg0 kid false 0 [] rgb0 ((0 : ℚ), 0, 0) img0 none
        = some ((1 - cfg0.ssim_lambda) * l1_mean img0 rgb0
            + cfg0.ssim_lambda * (1 - Kernels.ssim kid img0 rgb0),
          scale_reg_term cfg0 kid 0 []) ∧
      scale_reg_term cfg0 kid 0 [] = 0 ∧
      scale_reg_term cfgReg kid 0 [] = 0 :=
  ⟨(get_loss_dict_spec cfg0 kid false 0 [] rgb0 ((0 : ℚ), 0, 0) img0
      (by decide) (by decide)).1,
   (get_loss_dict_spec cfg0 kid false 0 [] rgb0 ((0 : ℚ), 0, 0) img0
      (by decide) (by decide)).2.1 (by decide),
   (get_loss_dict_spec cfgReg kid false 0 [] rgb0 ((0 : ℚ), 0, 0) img0
      (by decide) (by decide)).2.2 ⟨by decide, by decide, by simp⟩⟩

theorem maskSet_getElem {α : Type} (f : α → α) (m : List Bool) (xs : List α) (i : ℕ)
    (hm : i < m.length) (hx : i < xs.length)
    (hmx : i < (maskSet f m xs).length) :
    (maskSet f m xs)[i] = if m[i] then f xs[i] else xs[i] := by
  induction m generalizing xs i with
  | nil => simp at hm
  | cons b m ih =>
    cases xs with
    | nil => simp at hx
    | cons x xs =>
      cases i with
      | zero => cases b <;> simp [maskSet]
      | succ i =>
        have hm' : i < m.length := by simpa using hm
        have hx' : i < xs.length := by simpa using hx
        cases b <;>
          simpa [maskSet] using ih xs i hm' hx' (by rw [maskSet_length]; omega)

/-- An active-densification state (step 1200): one primitive whose
exponentiated scale is below `densify_size_thresh` but whose tracked screen
size exceeds `split_screen_size`, with a high accumulated gradient. -/
def stC1 : TrainState :=
  { step := 1200,
    gauss := { means := [((0 : ℚ), 0, 0)],
               scales := [((1 : ℚ) / 200, (1 : ℚ) / 200, (1 : ℚ) / 200)],
               quats := [((1 : ℚ), 0, 0, 0)],
               features_dc := [((0 : ℚ), 0, 0)],
               features_rest := [[]], opacities := [(5 : ℚ)] },
    xys_grad_norm := some [(1 : ℚ)], vis_counts := some [(1 : ℚ)],
    max_2Dsize := some [(1 : ℚ) / 10], last_size := (2, 2),
    radii := [(1 : ℚ)] }

/-- C1 counterexample: with the default configuration at step 1200 (which
satisfies the densification guard for 10 training views, so this state is
reached by `refinement_after`), primitive 0 is selected by BOTH the split
mask and the duplicate mask: its scale is at most the size threshold (so it
is picked for duplication) while its screen-space footprint puts it in the
split mask, and after `split_gaussians` shrinks its scale in place the
duplicate test still sees a small scale.  The two masks are not disjoint. -/
theorem split_dup_overlap_cex :
    ((densify_masks cfg0 kid rnd0 stC1 [(1 : ℚ)] [(1 : ℚ)] [(1 : ℚ) / 10]).1.getD 0 false = true ∧
      (densify_masks cfg0 kid rnd0 stC1 [(1 : ℚ)] [(1 : ℚ)] [(1 : ℚ) / 10]).2.getD 0 false = true) ∧
      (stC1.step < cfg0.stop_split_at ∧
        10 + cfg0.refine_every < stC1.step % (cfg0.reset_alpha_every * cfg0.refine_every) ∧
        cfg0.warmup_length < stC1.step) := by
  refine ⟨⟨?_, ?_⟩, by decide⟩ <;>
    norm_num [densify_masks, densify_splits, densify_dups, high_grads_mask,
      split_gaussians, shrinkScale, maskSet, maskKeep, countTrue, repeatN,
      orMask, andMask, expV, logV, maxAxis, vdivc, size_fac, cfg0, kid, rnd0, stC1]

theorem andMask_getD_true {a b : List Bool} {i : ℕ}
    (h : (andMask a b).getD i false = true) :
    ∃ (ha : i < a.length) (hb : i < b.length), a[i] = true ∧ b[i] = true := by
  have hi : i < (andMask a b).length := by
    by_contra hlt
    rw [List.getD_eq_default _ _ (le_of_not_lt hlt)] at h
    exact Bool.false_ne_true h
  have hal : i < a.length := by have := andMask_length a b; omega
  have hbl : i < b.length := by have := andMask_length a b; omega
  refine ⟨hal, hbl, ?_⟩
  have h' : (andMask a b)[i] = true := by rwa [List.getD_eq_getElem _ _ hi] at h
  have h'' : (a[i] && b[i]) = true := by
    rw [← h']
    exact (List.getElem_zipWith (i := i)).symm
  simpa [Bool.and_eq_true] using h''

/-- C1 amended: the split and duplicate masks of the densification decision
are disjoint provided (a) the screen-size split criterion is inactive
(`step >= stop_screen_size_at`), and (b) shrinking a split parent's scale by
the split factor 1.6 does not drop its max exponentiated axis below
`densify_size_thresh` (the duplicate mask is evaluated after the in-place
shrink).  Without those provisos the masks can overlap, as the
counterexample shows. -/
theorem split_dup_disjoint_amended (cfg : SplatfactoModelConfig) (e : Kernels)
    (rnd : ℕ → Vec3) (st : TrainState) (gn vc m2d : List ℚ)
    (hstep : cfg.stop_screen_size_at ≤ st.step)
    (hshrink : ∀ s ∈ st.gauss.scales,
      cfg.densify_size_thresh < maxAxis (expV e s) →
        cfg.densify_size_thresh < maxAxis (expV e (shrinkScale e s))) :
    ∀ i, ¬((densify_masks cfg e rnd st gn vc m2d).1.getD i false = true ∧
        (densify_masks cfg e rnd st gn vc m2d).2.getD i false = true) := by
  intro i hcontra
  obtain ⟨hs, hd⟩ := hcontra
  have hmask1 : (densify_masks cfg e rnd st gn vc m2d).1
      = densify_splits cfg e st.gauss.scales m2d st.step
          (high_grads_mask cfg gn vc st.last_size) := rfl
  have hmask2 : (densify_masks cfg e rnd st gn vc m2d).2
      = densify_dups cfg e
          (maskSet (shrinkScale e)
            (densify_splits cfg e st.gauss.scales m2d st.step
              (high_grads_mask cfg gn vc st.last_size))
            st.gauss.scales)
          (high_grads_mask cfg gn vc st.last_size) := rfl
  rw [hmask1] at hs
  rw [hmask2] at hd
  have hsplits : densify_splits cfg e st.gauss.scales m2d st.step
      (high_grads_mask cfg gn vc st.last_size)
      = andMask (st.gauss.scales.map
          (fun s => decide (cfg.densify_size_thresh < maxAxis (expV e s))))
          (high_grads_mask cfg gn vc st.last_size) := by
    simp [densify_splits, not_lt.2 hstep]
  rw [hsplits] at hs hd
  simp only [densify_dups] at hd
  obtain ⟨hisB, hih, hfb0, hfh0⟩ := andMask_getD_true hs
  obtain ⟨hisD, -, hfd0, -⟩ := andMask_getD_true hd
  have hisc : i < st.gauss.scales.length := by simpa using hisB
  -- the split parent is large before the shrink
  have hbig : cfg.densify_size_thresh < maxAxis (expV e st.gauss.scales[i]) := by
    have h := hfb0
    simp only [List.getElem_map, decide_eq_true_eq] at h
    exact h
  -- the split mask itself holds at i
  have him : i < (andMask (st.gauss.scales.map
      (fun s => decide (cfg.densify_size_thresh < maxAxis (expV e s))))
      (high_grads_mask cfg gn vc st.last_size)).length := by
    rw [andMask_length, List.length_map]
    omega
  have hm : (andMask (st.gauss.scales.map
      (fun s => decide (cfg.densify_size_thresh < maxAxis (expV e s))))
      (high_grads_mask cfg gn vc st.last_size))[i] = true := by
    have h : (andMask (st.gauss.scales.map
        (fun s => decide (cfg.densify_size_thresh < maxAxis (expV e s))))
        (high_grads_mask cfg gn vc st.last_size))[i]
        = ((st.gauss.scales.map
            (fun s => decide (cfg.densify_size_thresh < maxAxis (expV e s))))[i]
          && (high_grads_mask cfg gn vc st.last_size)[i]) :=
      List.getElem_zipWith (i := i)
    rw [h, hfb0, hfh0]
    rfl
  -- the duplicate test holds at i on the post-shrink scales
  have hisD' : i < (maskSet (shrinkScale e)
      (andMask (st.gauss.scales.map
        (fun s => decide (cfg.densify_size_thresh < maxAxis (expV e s))))
        (high_grads_mask cfg gn vc st.last_size))
      st.gauss.scales).length := by simpa using hisD
  have hsmall : maxAxis (expV e (maskSet (shrinkScale e)
      (andMask (st.gauss.scales.map
        (fun s => decide (cfg.densify_size_thresh < maxAxis (expV e s))))
        (high_grads_mask cfg gn vc st.last_size))
      st.gauss.scales)[i]) ≤ cfg.densify_size_thresh := by
    have h := hfd0
    simp only [List.getElem_map, decide_eq_true_eq] at h
    exact h
  rw [maskSet_getElem _ _ _ i him hisc] at hsmall
  rw [if_pos hm] at hsmall
  exact absurd hsmall (not_le.2 (hshrink _ (List.getElem_mem hisc) hbig))

/-- A state past the screen-size cutoff (step 4000) whose single primitive
is large and stays above the size threshold after the split shrink. -/
def stA : TrainState :=
  { step := 4000,
    gauss := { means := [((0 : ℚ), 0, 0)], scales := [((2 : ℚ), 2, 2)],
               quats := [((1 : ℚ), 0, 0, 0)], features_dc := [((0 : ℚ), 0, 0)],
               features_rest := [[]], opacities := [(5 : ℚ)] },
    xys_grad_norm := some [(1 : ℚ)], vis_counts := some [(1 : ℚ)],
    max_2Dsize := some [(0 : ℚ)], last_size := (2, 2), radii := [(1 : ℚ)] }

/-- Witness for the amended C1 at the concrete state `stA`: with the screen
branch inactive and the shrunken scale still above the threshold, index 0 is
not in both masks. -/
theorem split_dup_disjoint_amended_w :
    ¬((densify_masks cfg0 kid rnd0 stA [(1 : ℚ)] [(1 : ℚ)] [(0 : ℚ)]).1.getD 0 false = true ∧
      (densify_masks cfg0 kid rnd0 stA [(1 : ℚ)] [(1 : ℚ)] [(0 : ℚ)]).2.getD 0 false = true) :=
  split_dup_disjoint_amended cfg0 kid rnd0 stA [(1 : ℚ)] [(1 : ℚ)] [(0 : ℚ)]
    (by decide)
    (by
      intro s hs h
      simp only [stA] at hs
      simp only [List.mem_singleton] at hs
      subst hs
      norm_num [shrinkScale, expV, logV, vdivc, maxAxis, size_fac, kid, cfg0])
    0

theorem orMask_getD (a b : List Bool) (i : ℕ) (ha : i < a.length) (hb : i < b.length) :
    (orMask a b).getD i false = (a.getD i false || b.getD i false) := by
  have hi : i < (orMask a b).length := by rw [orMask_length]; omega
  rw [List.getD_eq_getElem _ _ hi, List.getD_eq_getElem _ _ ha, List.getD_eq_getElem _ _ hb]
  exact List.getElem_zipWith (i := i)

theorem map_getD_decide {α : Type} (p : α → Prop) [DecidablePred p] (xs : List α)
    (d : α) (i : ℕ) (hi : i < xs.length) :
    (xs.map (fun a => decide (p a))).getD i false = decide (p (xs.getD i d)) := by
  rw [List.getD_eq_getElem _ _ (by simpa using hi), List.getD_eq_getElem _ _ hi,
    List.getElem_map]

theorem filterGauss_conclusions (g : GaussParams) (C : List Bool) (n : ℕ)
    (hal : gaussAligned g n) (hC : C.length = n) :
    (filterGauss C g).opacities.length + countTrue C = n ∧
      (filterGauss C g).means.Sublist g.means ∧
      (filterGauss C g).scales.Sublist g.scales ∧
      (filterGauss C g).quats.Sublist g.quats ∧
      (filterGauss C g).features_dc.Sublist g.features_dc ∧
      (filterGauss C g).features_rest.Sublist g.features_rest ∧
      (filterGauss C g).opacities.Sublist g.opacities := by
  obtain ⟨h1, h2, h3, h4, h5, h6⟩ := hal
  refine ⟨?_, maskDrop_sublist .., maskDrop_sublist .., maskDrop_sublist ..,
    maskDrop_sublist .., maskDrop_sublist .., maskDrop_sublist ..⟩
  have := maskDrop_length_add C g.opacities (by omega)
  simpa [filterGauss, h6] using this

/-- C4: `cull_gaussians` computes its removal mask as the OR of the
low-opacity criterion `sigmoid(opacity) < cull_alpha_thresh`, the supplied
extra cull mask, and — only once `step > refine_every * reset_alpha_every` —
the size criterion (max exponentiated axis over `cull_scale_thresh`, OR,
while `step < stop_screen_size_at`, tracked screen size over
`cull_screen_size`); it removes exactly the primitives matching this mask
from every one of the six field arrays, and the survivors keep their
original relative order. -/
theorem cull_gaussians_spec (cfg : SplatfactoModelConfig) (e : Kernels)
    (st : TrainState) (xm : List Bool) (m2d : List ℚ) (n : ℕ)
    (hal : gaussAligned st.gauss n) (hxm : xm.length = n)
    (hm : st.max_2Dsize = some m2d) (hm2d : m2d.length = n) :
    ∃ st' culls, cull_gaussians cfg e st (some xm) = some (st', culls) ∧
      culls.length = n ∧
      (∀ i, i < n →
        (culls.getD i false = true ↔
          (e.sigmoid (st.gauss.opacities.getD i 0) < cfg.cull_alpha_thresh
           ∨ xm.getD i false = true
           ∨ (cfg.refine_every * cfg.reset_alpha_every < st.step ∧
              (cfg.cull_scale_thresh
                  < maxAxis (expV e (st.gauss.scales.getD i ((0 : ℚ), 0, 0)))
               ∨ (st.step < cfg.stop_screen_size_at ∧
                  cfg.cull_screen_size < m2d.getD i 0)))))) ∧
      st'.gauss = filterGauss culls st.gauss ∧
      st'.gauss.opacities.length + countTrue culls = n ∧
      st'.gauss.means.Sublist st.gauss.means ∧
      st'.gauss.scales.Sublist st.gauss.scales ∧
      st'.gauss.quats.Sublist st.gauss.quats ∧
      st'.gauss.features_dc.Sublist st.gauss.features_dc ∧
      st'.gauss.features_rest.Sublist st.gauss.features_rest ∧
      st'.gauss.opacities.Sublist st.gauss.opacities := by
  obtain ⟨ha1, ha2, ha3, ha4, ha5, ha6⟩ := hal
  by_cases h1 : cfg.refine_every * cfg.reset_alpha_every < st.step
  · by_cases h2 : st.step < cfg.stop_screen_size_at
    · -- size and screen criteria both active
      refine ⟨_, _,
        (show cull_gaussians cfg e st (some xm) = some
          ({ st with gauss := (filterGauss
            (orMask (orMask (st.gauss.opacities.map
                (fun o => decide (e.sigmoid o < cfg.cull_alpha_thresh))) xm)
              (orMask (st.gauss.scales.map
                  (fun s => decide (cfg.cull_scale_thresh < maxAxis (expV e s))))
                (m2d.map (fun x => decide (cfg.cull_screen_size < x)))))
            st.gauss) },
          orMask (orMask (st.gauss.opacities.map
              (fun o => decide (e.sigmoid o < cfg.cull_alpha_thresh))) xm)
            (orMask (st.gauss.scales.map
                (fun s => decide (cfg.cull_scale_thresh < maxAxis (expV e s))))
              (m2d.map (fun x => decide (cfg.cull_screen_size < x)))))
          from by simp [cull_gaussians, hm, h1, h2]), ?_, ?_, rfl, ?_⟩
      · simp only [orMask_length, List.length_map]
        omega
      · intro i hi
        rw [orMask_getD _ _ i
            (by simp only [orMask_length, List.length_map]; omega)
            (by simp only [orMask_length, List.length_map]; omega),
          orMask_getD _ _ i (by simp only [orMask_length, List.length_map]; omega) (by omega),
          orMask_getD _ _ i (by simp only [orMask_length, List.length_map]; omega) (by simp only [orMask_length, List.length_map]; omega),
          map_getD_decide _ _ (0 : ℚ) i (by omega),
          map_getD_decide _ _ ((0 : ℚ), (0 : ℚ), (0 : ℚ)) i (by omega),
          map_getD_decide _ _ (0 : ℚ) i (by omega)]
        simp only [Bool.or_eq_true, decide_eq_true_eq, h1, h2, true_and]
        tauto
      · exact filterGauss_conclusions st.gauss _ n ⟨ha1, ha2, ha3, ha4, ha5, ha6⟩
          (by simp only [orMask_length, List.length_map]; omega)
    · -- size criterion active, screen criterion past its cutoff
      refine ⟨_, _,
        (show cull_gaussians cfg e st (some xm) = some
          ({ st with gauss := (filterGauss
            (orMask (orMask (st.gauss.opacities.map
                (fun o => decide (e.sigmoid o < cfg.cull_alpha_thresh))) xm)
              (st.gauss.scales.map
                (fun s => decide (cfg.cull_scale_thresh < maxAxis (expV e s)))))
            st.gauss) },
          orMask (orMask (st.gauss.opacities.map
              (fun o => decide (e.sigmoid o < cfg.cull_alpha_thresh))) xm)
            (st.gauss.scales.map
              (fun s => decide (cfg.cull_scale_thresh < maxAxis (expV e s)))))
          from by simp [cull_gaussians, hm, h1, h2]), ?_, ?_, rfl, ?_⟩
      · simp only [orMask_length, List.length_map]
        omega
      · intro i hi
        rw [orMask_getD _ _ i
            (by simp only [orMask_length, List.length_map]; omega)
            (by simp only [orMask_length, List.length_map]; omega),
          orMask_getD _ _ i (by simp only [orMask_length, List.length_map]; omega) (by omega),
          map_getD_decide _ _ (0 : ℚ) i (by omega),
          map_getD_decide _ _ ((0 : ℚ), (0 : ℚ), (0 : ℚ)) i (by omega)]
        simp only [Bool.or_eq_true, decide_eq_true_eq, h1, h2, true_and, false_and,
          or_false]
        tauto
      · exact filterGauss_conclusions st.gauss _ n ⟨ha1, ha2, ha3, ha4, ha5, ha6⟩
          (by simp only [orMask_length, List.length_map]; omega)
  · -- before the first opacity-reset interval: alpha and extra mask only
    refine ⟨_, _,
      (show cull_gaussians cfg e st (some xm) = some
        ({ st with gauss := (filterGauss
          (orMask (st.gauss.opacities.map
              (fun o => decide (e.sigmoid o < cfg.cull_alpha_thresh))) xm)
          st.gauss) },
        orMask (st.gauss.opacities.map
            (fun o => decide (e.sigmoid o < cfg.cull_alpha_thresh))) xm)
        from by simp [cull_gaussians, hm, h1]), ?_, ?_, rfl, ?_⟩
    · simp only [orMask_length, List.length_map]
      omega
    · intro i hi
      rw [orMask_getD _ _ i (by simp only [orMask_length, List.length_map]; omega) (by omega),
        map_getD_decide _ _ (0 : ℚ) i (by omega)]
      simp only [Bool.or_eq_true, decide_eq_true_eq, h1, false_and, or_false]
    · exact filterGauss_conclusions st.gauss _ n ⟨ha1, ha2, ha3, ha4, ha5, ha6⟩
        (by simp only [orMask_length, List.length_map]; omega)

/-- Witness for C4 at a concrete one-primitive state with extra mask
`[true]`. -/
theorem cull_gaussians_spec_w :
    ∃ st' culls, cull_gaussians cfg0 kid stA (some [true]) = some (st', culls) ∧
      culls.length = 1 := by
  obtain ⟨st', culls, he, hl, -⟩ :=
    cull_gaussians_spec cfg0 kid stA [true] [(0 : ℚ)] 1
      (by decide) (by decide) (by decide) (by decide)
  exact ⟨st', culls, he, hl⟩

/-! ### Length and alignment lemmas for the densification path -/

theorem high_grads_mask_length (cfg : SplatfactoModelConfig) (gn vc : List ℚ)
    (ls : ℕ × ℕ) : (high_grads_mask cfg gn vc ls).length = min gn.length vc.length := by
  simp [high_grads_mask, List.length_zipWith]

theorem densify_splits_length (cfg : SplatfactoModelConfig) (e : Kernels)
    (scales : List Vec3) (m2d : List ℚ) (step : ℕ) (high : List Bool) :
    (densify_splits cfg e scales m2d step high).length
      = min (if step < cfg.stop_screen_size_at then min scales.length m2d.length
          else scales.length) high.length := by
  by_cases h : step < cfg.stop_screen_size_at <;>
    simp [densify_splits, h, andMask_length, orMask_length, List.length_map]

theorem densify_dups_length (cfg : SplatfactoModelConfig) (e : Kernels)
    (scales : List Vec3) (high : List Bool) :
    (densify_dups cfg e scales high).length = min scales.length high.length := by
  simp [densify_dups, andMask_length, List.length_map]

theorem split_gaussians_aligned (e : Kernels) (rnd : ℕ → Vec3) (g : GaussParams)
    (mask : List Bool) (samps n : ℕ) (hal : gaussAligned g n) (hm : mask.length = n) :
    gaussAligned (split_gaussians e rnd g mask samps).1 (samps * countTrue mask) ∧
      gaussAligned (split_gaussians e rnd g mask samps).2 n := by
  obtain ⟨h1, h2, h3, h4, h5, h6⟩ := hal
  have k1 : (maskKeep mask g.means).length = countTrue mask :=
    maskKeep_length _ _ (by omega)
  have k2 : (maskKeep mask g.scales).length = countTrue mask :=
    maskKeep_length _ _ (by omega)
  have k3 : (maskKeep mask g.quats).length = countTrue mask :=
    maskKeep_length _ _ (by omega)
  have k4 : (maskKeep mask g.features_dc).length = countTrue mask :=
    maskKeep_length _ _ (by omega)
  have k5 : (maskKeep mask g.features_rest).length = countTrue mask :=
    maskKeep_length _ _ (by omega)
  have k6 : (maskKeep mask g.opacities).length = countTrue mask :=
    maskKeep_length _ _ (by omega)
  constructor
  · refine ⟨?_, ?_, ?_, ?_, ?_, ?_⟩ <;>
      simp [split_gaussians, List.length_zipWith, repeatN_length, List.length_map,
        List.length_range, k1, k2, k3, k4, k5, k6] <;> omega
  · exact ⟨by simp [split_gaussians, h1],
      by rw [show (split_gaussians e rnd g mask samps).2.scales
          = maskSet (shrinkScale e) mask g.scales from rfl, maskSet_length]; omega,
      by simp [split_gaussians, h3], by simp [split_gaussians, h4],
      by simp [split_gaussians, h5], by simp [split_gaussians, h6]⟩

theorem dup_gaussians_aligned (g : GaussParams) (mask : List Bool) (n : ℕ)
    (hal : gaussAligned g n) (hm : mask.length = n) :
    gaussAligned (dup_gaussians g mask) (countTrue mask) := by
  obtain ⟨h1, h2, h3, h4, h5, h6⟩ := hal
  exact ⟨maskKeep_length _ _ (by omega), maskKeep_length _ _ (by omega),
    maskKeep_length _ _ (by omega), maskKeep_length _ _ (by omega),
    maskKeep_length _ _ (by omega), maskKeep_length _ _ (by omega)⟩

theorem catGauss_aligned (a b : GaussParams) (na nb : ℕ)
    (ha : gaussAligned a na) (hb : gaussAligned b nb) :
    gaussAligned (catGauss a b) (na + nb) := by
  obtain ⟨a1, a2, a3, a4, a5, a6⟩ := ha
  obtain ⟨b1, b2, b3, b4, b5, b6⟩ := hb
  exact ⟨by simp [catGauss, a1, b1], by simp [catGauss, a2, b2],
    by simp [catGauss, a3, b3], by simp [catGauss, a4, b4],
    by simp [catGauss, a5, b5], by simp [catGauss, a6, b6]⟩

/-- When no primitive meets the opacity, scale or screen criteria, the cull
mask is exactly the supplied extra mask. -/
theorem cull_gaussians_extra_only (cfg : SplatfactoModelConfig) (e : Kernels)
    (st : TrainState) (xm : List Bool) (m2 : List ℚ)
    (hm : st.max_2Dsize = some m2)
    (hxm : xm.length = st.gauss.opacities.length)
    (hsc : st.gauss.scales.length = st.gauss.opacities.length)
    (hm2 : m2.length = st.gauss.opacities.length)
    (Halpha : ∀ o ∈ st.gauss.opacities, ¬ e.sigmoid o < cfg.cull_alpha_thresh)
    (Hscale : ∀ s ∈ st.gauss.scales, ¬ cfg.cull_scale_thresh < maxAxis (expV e s))
    (Hscr : ∀ x ∈ m2, ¬ cfg.cull_screen_size < x) :
    cull_gaussians cfg e st (some xm)
      = some ({ st with gauss := filterGauss xm st.gauss }, xm) := by
  have hbase : st.gauss.opacities.map
      (fun o => decide (e.sigmoid o < cfg.cull_alpha_thresh))
      = List.replicate st.gauss.opacities.length false :=
    map_eq_replicate_false _ _ (fun o ho => decide_eq_false (Halpha o ho))
  have e1 : orMask (st.gauss.opacities.map
      (fun o => decide (e.sigmoid o < cfg.cull_alpha_thresh))) xm = xm := by
    rw [hbase]
    exact orMask_replicate_false_left xm _ hxm
  have hbig : st.gauss.scales.map
      (fun s => decide (cfg.cull_scale_thresh < maxAxis (expV e s)))
      = List.replicate st.gauss.opacities.length false := by
    rw [map_eq_replicate_false _ _ (fun s hs => decide_eq_false (Hscale s hs)), hsc]
  have hscr : m2.map (fun x => decide (cfg.cull_screen_size < x))
      = List.replicate st.gauss.opacities.length false := by
    rw [map_eq_replicate_false _ _ (fun x hx => decide_eq_false (Hscr x hx)), hm2]
  have e4 : orMask (List.replicate st.gauss.opacities.length false)
      (List.replicate st.gauss.opacities.length false)
      = List.replicate st.gauss.opacities.length false :=
    orMask_replicate_false_left _ _ (by simp)
  have e5 : orMask xm (List.replicate st.gauss.opacities.length false) = xm :=
    orMask_replicate_false_right xm _ hxm
  by_cases h1 : cfg.refine_every * cfg.reset_alpha_every < st.step
  · by_cases h2 : st.step < cfg.stop_screen_size_at
    · simp [cull_gaussians, hm, h1, h2, e1, hbig, hscr, e4, e5]
    · simp [cull_gaussians, hm, h1, h2, e1, hbig, e5]
  · simp [cull_gaussians, hm, h1, e1]

/-- Record-shaped corollary of `cull_gaussians_extra_only`, with the
alignment stated once via `gaussAligned`. -/
theorem cull_gaussians_extra_only_aligned (cfg : SplatfactoModelConfig)
    (e : Kernels) (st : TrainState) (G : GaussParams) (m2 : List ℚ)
    (xm : List Bool) (n' : ℕ) (hG : gaussAligned G n')
    (hxm : xm.length = n') (hm2 : m2.length = n')
    (Halpha : ∀ o ∈ G.opacities, ¬ e.sigmoid o < cfg.cull_alpha_thresh)
    (Hscale : ∀ s ∈ G.scales, ¬ cfg.cull_scale_thresh < maxAxis (expV e s))
    (Hscr : ∀ x ∈ m2, ¬ cfg.cull_screen_size < x) :
    cull_gaussians cfg e { st with gauss := G, max_2Dsize := some m2 } (some xm)
      = some ({ st with gauss := filterGauss xm G, max_2Dsize := some m2 }, xm) := by
  obtain ⟨-, h2, -, -, -, h6⟩ := hG
  exact cull_gaussians_extra_only cfg e
    { st with gauss := G, max_2Dsize := some m2 } xm m2 rfl
    (show xm.length = G.opacities.length by omega)
    (show G.scales.length = G.opacities.length by omega)
    (show m2.length = G.opacities.length by omega)
    Halpha Hscale Hscr

set_option maxHeartbeats 1000000 in
/-- C3: within one densification event, splitting the `k` selected
primitives with `n_split_samples` children each appends exactly
`k * n_split_samples` children, the extra cull mask marks exactly those `k`
parents (the appended children are padded with `false`), and — when no
primitive meets the opacity or size cull criteria (the size criteria are
required both before and after the in-place 1.6x shrink) — the resulting
store is the survivors `maskDrop splits` followed by all children and all
duplicates: the primitive count satisfies
`count' + k = n + k * n_split_samples + d`, i.e. the split contributes a net
`k * (n_split_samples - 1)` with split parents removed and duplicate
originals retained. -/
theorem densify_split_conservation (cfg : SplatfactoModelConfig) (e : Kernels)
    (rnd : ℕ → Vec3) (st : TrainState) (gn vc m2d : List ℚ) (n : ℕ)
    (hal : gaussAligned st.gauss n) (hgn : gn.length = n) (hvc : vc.length = n)
    (hm2d : m2d.length = n)
    (Halpha : ∀ o ∈ st.gauss.opacities, ¬ e.sigmoid o < cfg.cull_alpha_thresh)
    (Hscale : ∀ s ∈ st.gauss.scales, ¬ cfg.cull_scale_thresh < maxAxis (expV e s))
    (Hscale2 : ∀ s ∈ st.gauss.scales,
      ¬ cfg.cull_scale_thresh < maxAxis (expV e (shrinkScale e s)))
    (Hscreen : ∀ x ∈ m2d, ¬ cfg.cull_screen_size < x)
    (Hzero : ¬ cfg.cull_screen_size < (0 : ℚ)) :
    ∃ st', densify_step cfg e rnd st gn vc m2d = some st' ∧
      countTrue ((densify_masks cfg e rnd st gn vc m2d).1
          ++ List.replicate (cfg.n_split_samples
              * countTrue (densify_masks cfg e rnd st gn vc m2d).1
            + countTrue (densify_masks cfg e rnd st gn vc m2d).2) false)
        = countTrue (densify_masks cfg e rnd st gn vc m2d).1 ∧
      numPoints st' + countTrue (densify_masks cfg e rnd st gn vc m2d).1
        = n + cfg.n_split_samples * countTrue (densify_masks cfg e rnd st gn vc m2d).1
          + countTrue (densify_masks cfg e rnd st gn vc m2d).2 ∧
      st'.gauss.means
        = maskDrop (densify_masks cfg e rnd st gn vc m2d).1 st.gauss.means
          ++ (split_gaussians e rnd st.gauss (densify_masks cfg e rnd st gn vc m2d).1
              cfg.n_split_samples).1.means
          ++ (dup_gaussians
              (split_gaussians e rnd st.gauss (densify_masks cfg e rnd st gn vc m2d).1
                cfg.n_split_samples).2
              (densify_masks cfg e rnd st gn vc m2d).2).means := by
  obtain ⟨h1, h2, h3, h4, h5, h6⟩ := hal
  -- mask lengths
  have hhigh : (high_grads_mask cfg gn vc st.last_size).length = n := by
    rw [high_grads_mask_length]
    omega
  have hslen : (densify_masks cfg e rnd st gn vc m2d).1.length = n := by
    rw [show (densify_masks cfg e rnd st gn vc m2d).1
        = densify_splits cfg e st.gauss.scales m2d st.step
            (high_grads_mask cfg gn vc st.last_size) from rfl,
      densify_splits_length]
    split_ifs <;> omega
  have hg1s : (split_gaussians e rnd st.gauss (densify_masks cfg e rnd st gn vc m2d).1
      cfg.n_split_samples).2.scales.length = n := by
    rw [show (split_gaussians e rnd st.gauss (densify_masks cfg e rnd st gn vc m2d).1
          cfg.n_split_samples).2.scales
        = maskSet (shrinkScale e) (densify_masks cfg e rnd st gn vc m2d).1
            st.gauss.scales from rfl,
      maskSet_length]
    omega
  have hdlen : (densify_masks cfg e rnd st gn vc m2d).2.length = n := by
    rw [show (densify_masks cfg e rnd st gn vc m2d).2
        = densify_dups cfg e
            (split_gaussians e rnd st.gauss (densify_masks cfg e rnd st gn vc m2d).1
              cfg.n_split_samples).2.scales
            (high_grads_mask cfg gn vc st.last_size) from rfl,
      densify_dups_length]
    omega
  -- unfold the densification branch
  have hstep : densify_step cfg e rnd st gn vc m2d
      = (cull_gaussians cfg e
          { st with
            gauss := catGauss (catGauss
              (split_gaussians e rnd st.gauss (densify_masks cfg e rnd st gn vc m2d).1
                cfg.n_split_samples).2
              (split_gaussians e rnd st.gauss (densify_masks cfg e rnd st gn vc m2d).1
                cfg.n_split_samples).1)
              (dup_gaussians
                (split_gaussians e rnd st.gauss
                  (densify_masks cfg e rnd st gn vc m2d).1 cfg.n_split_samples).2
                (densify_masks cfg e rnd st gn vc m2d).2),
            max_2Dsize := some (m2d
              ++ (split_gaussians e rnd st.gauss
                  (densify_masks cfg e rnd st gn vc m2d).1
                  cfg.n_split_samples).1.scales.map (fun _ => (0 : ℚ))
              ++ (dup_gaussians
                  (split_gaussians e rnd st.gauss
                    (densify_masks cfg e rnd st gn vc m2d).1 cfg.n_split_samples).2
                  (densify_masks cfg e rnd st gn vc m2d).2).scales.map
                    (fun _ => (0 : ℚ))) }
          (some ((densify_masks cfg e rnd st gn vc m2d).1
            ++ List.replicate (cfg.n_split_samples
                * countTrue (densify_masks cfg e rnd st gn vc m2d).1
              + countTrue (densify_masks cfg e rnd st gn vc m2d).2) false))).map
        Prod.fst := rfl
  rw [hstep]
  generalize hS : (densify_masks cfg e rnd st gn vc m2d).1 = S at *
  generalize hD : (densify_masks cfg e rnd st gn vc m2d).2 = D at *
  -- alignment of the pieces
  obtain ⟨hspal, hg1al⟩ :=
    split_gaussians_aligned e rnd st.gauss S cfg.n_split_samples n
      ⟨h1, h2, h3, h4, h5, h6⟩ hslen
  have hdpal := dup_gaussians_aligned
    (split_gaussians e rnd st.gauss S cfg.n_split_samples).2 D n hg1al hdlen
  have hg2al := catGauss_aligned _ _ _ _ (catGauss_aligned _ _ _ _ hg1al hspal) hdpal
  have hg2m := hg2al.1
  have hspm := hspal.1
  have hdpm := hdpal.1
  have hsps := hspal.2.1
  have hdps := hdpal.2.1
  -- facts about the fields of the post-split store
  have hg1means : (split_gaussians e rnd st.gauss S cfg.n_split_samples).2.means
      = st.gauss.means := rfl
  have hg1sc : (split_gaussians e rnd st.gauss S cfg.n_split_samples).2.scales
      = maskSet (shrinkScale e) S st.gauss.scales := rfl
  have hg1op : (split_gaussians e rnd st.gauss S cfg.n_split_samples).2.opacities
      = st.gauss.opacities := rfl
  have hspsc : (split_gaussians e rnd st.gauss S cfg.n_split_samples).1.scales
      = repeatN cfg.n_split_samples
          ((maskKeep S st.gauss.scales).map (shrinkScale e)) := rfl
  have hspop : (split_gaussians e rnd st.gauss S cfg.n_split_samples).1.opacities
      = repeatN cfg.n_split_samples (maskKeep S st.gauss.opacities) := rfl
  have hdpsc : (dup_gaussians (split_gaussians e rnd st.gauss S cfg.n_split_samples).2 D).scales
      = maskKeep D (maskSet (shrinkScale e) S st.gauss.scales) := rfl
  have hdpop : (dup_gaussians (split_gaussians e rnd st.gauss S cfg.n_split_samples).2 D).opacities
      = maskKeep D st.gauss.opacities := rfl
  -- the cull inside the densification step removes exactly the split parents
  have hcull := cull_gaussians_extra_only_aligned cfg e st
    (catGauss (catGauss
      (split_gaussians e rnd st.gauss S cfg.n_split_samples).2
      (split_gaussians e rnd st.gauss S cfg.n_split_samples).1)
      (dup_gaussians (split_gaussians e rnd st.gauss S cfg.n_split_samples).2 D))
    (m2d
      ++ (split_gaussians e rnd st.gauss S cfg.n_split_samples).1.scales.map
          (fun _ => (0 : ℚ))
      ++ (dup_gaussians (split_gaussians e rnd st.gauss S cfg.n_split_samples).2
          D).scales.map (fun _ => (0 : ℚ)))
    (S ++ List.replicate (cfg.n_split_samples * countTrue S + countTrue D) false)
    (n + cfg.n_split_samples * countTrue S + countTrue D)
    hg2al
    (by
      simp only [List.length_append, List.length_replicate]
      omega)
    (by
      simp only [List.length_append, List.length_map]
      omega)
    (by
      intro o ho
      rw [show (catGauss (catGauss
          (split_gaussians e rnd st.gauss S cfg.n_split_samples).2
          (split_gaussians e rnd st.gauss S cfg.n_split_samples).1)
          (dup_gaussians (split_gaussians e rnd st.gauss S
            cfg.n_split_samples).2 D)).opacities
        = st.gauss.opacities
          ++ repeatN cfg.n_split_samples (maskKeep S st.gauss.opacities)
          ++ maskKeep D st.gauss.opacities from rfl] at ho
      simp only [List.mem_append] at ho
      rcases ho with (ho | ho) | ho
      · exact Halpha o ho
      · exact Halpha o (mem_of_mem_maskKeep (mem_of_mem_repeatN ho))
      · exact Halpha o (mem_of_mem_maskKeep ho))
    (by
      intro s hs
      rw [show (catGauss (catGauss
          (split_gaussians e rnd st.gauss S cfg.n_split_samples).2
          (split_gaussians e rnd st.gauss S cfg.n_split_samples).1)
          (dup_gaussians (split_gaussians e rnd st.gauss S
            cfg.n_split_samples).2 D)).scales
        = maskSet (shrinkScale e) S st.gauss.scales
          ++ repeatN cfg.n_split_samples
              ((maskKeep S st.gauss.scales).map (shrinkScale e))
          ++ maskKeep D (maskSet (shrinkScale e) S st.gauss.scales) from rfl] at hs
      simp only [List.mem_append] at hs
      rcases hs with (hs | hs) | hs
      · rcases mem_of_mem_maskSet hs with hs' | ⟨x, hx, rfl⟩
        · exact Hscale s hs'
        · exact Hscale2 x hx
      · obtain ⟨x, hx, rfl⟩ := List.mem_map.1 (mem_of_mem_repeatN hs)
        exact Hscale2 x (mem_of_mem_maskKeep hx)
      · rcases mem_of_mem_maskSet (mem_of_mem_maskKeep hs) with hs' | ⟨x, hx, rfl⟩
        · exact Hscale s hs'
        · exact Hscale2 x hx)
    (by
      intro x hx
      simp only [List.mem_append] at hx
      rcases hx with (hx | hx) | hx
      · exact Hscreen x hx
      · obtain ⟨y, -, rfl⟩ := List.mem_map.1 hx
        exact Hzero
      · obtain ⟨y, -, rfl⟩ := List.mem_map.1 hx
        exact Hzero)
  rw [hcull]
  refine ⟨_, rfl, countTrue_append_replicate_false S _, ?_, ?_⟩
  · -- primitive count conservation
    have hmd := maskDrop_length_add
      (S ++ List.replicate (cfg.n_split_samples * countTrue S + countTrue D) false)
      (catGauss (catGauss
        (split_gaussians e rnd st.gauss S cfg.n_split_samples).2
        (split_gaussians e rnd st.gauss S cfg.n_split_samples).1)
        (dup_gaussians (split_gaussians e rnd st.gauss S cfg.n_split_samples).2 D)).means
      (by
        rw [hg2m]
        simp only [List.length_append, List.length_replicate]
        omega)
    rw [countTrue_append_replicate_false S, hg2m] at hmd
    simp only [numPoints, filterGauss]
    omega
  · -- the surviving store: parents dropped, children and duplicates kept
    show maskDrop (S ++ List.replicate (cfg.n_split_samples * countTrue S + countTrue D) false)
        (catGauss (catGauss
          (split_gaussians e rnd st.gauss S cfg.n_split_samples).2
          (split_gaussians e rnd st.gauss S cfg.n_split_samples).1)
          (dup_gaussians (split_gaussians e rnd st.gauss S cfg.n_split_samples).2 D)).means
      = maskDrop S st.gauss.means
        ++ (split_gaussians e rnd st.gauss S cfg.n_split_samples).1.means
        ++ (dup_gaussians (split_gaussians e rnd st.gauss S cfg.n_split_samples).2 D).means
    have hcatm : (catGauss (catGauss
        (split_gaussians e rnd st.gauss S cfg.n_split_samples).2
        (split_gaussians e rnd st.gauss S cfg.n_split_samples).1)
        (dup_gaussians (split_gaussians e rnd st.gauss S cfg.n_split_samples).2 D)).means
        = st.gauss.means
          ++ ((split_gaussians e rnd st.gauss S cfg.n_split_samples).1.means
            ++ (dup_gaussians (split_gaussians e rnd st.gauss S
                cfg.n_split_samples).2 D).means) := by
      rw [show (catGauss (catGauss
          (split_gaussians e rnd st.gauss S cfg.n_split_samples).2
          (split_gaussians e rnd st.gauss S cfg.n_split_samples).1)
          (dup_gaussians (split_gaussians e rnd st.gauss S
            cfg.n_split_samples).2 D)).means
        = (split_gaussians e rnd st.gauss S cfg.n_split_samples).2.means
          ++ (split_gaussians e rnd st.gauss S cfg.n_split_samples).1.means
          ++ (dup_gaussians (split_gaussians e rnd st.gauss S
              cfg.n_split_samples).2 D).means from rfl,
        hg1means, List.append_assoc]
    rw [hcatm, maskDrop_append S _ _ _ (by omega)]
    have hrep : List.replicate (cfg.n_split_samples * countTrue S + countTrue D) false
        = List.replicate ((split_gaussians e rnd st.gauss S cfg.n_split_samples).1.means
            ++ (dup_gaussians (split_gaussians e rnd st.gauss S
                cfg.n_split_samples).2 D).means).length false := by
      rw [List.length_append, hspm, hdpm]
    rw [hrep, maskDrop_replicate_false]
    simp

/-- An active-densification state (step 1200) whose single primitive splits
(scale above the densify threshold) but meets none of the cull criteria,
before or after the shrink. -/
def stC3 : TrainState :=
  { step := 1200,
    gauss := { means := [((0 : ℚ), 0, 0)],
               scales := [((2 : ℚ) / 5, (2 : ℚ) / 5, (2 : ℚ) / 5)],
               quats := [((1 : ℚ), 0, 0, 0)],
               features_dc := [((0 : ℚ), 0, 0)],
               features_rest := [[]], opacities := [(5 : ℚ)] },
    xys_grad_norm := some [(1 : ℚ)], vis_counts := some [(1 : ℚ)],
    max_2Dsize := some [(0 : ℚ)], last_size := (2, 2), radii := [(1 : ℚ)] }

/-- Witness for C3 at the concrete state `stC3`: the densification branch
succeeds and the primitive count obeys the split conservation law. -/
theorem densify_split_conservation_w :
    ∃ st', densify_step cfg0 kid rnd0 stC3 [(1 : ℚ)] [(1 : ℚ)] [(0 : ℚ)] = some st' ∧
      numPoints st'
          + countTrue (densify_masks cfg0 kid rnd0 stC3 [(1 : ℚ)] [(1 : ℚ)] [(0 : ℚ)]).1
        = 1 + cfg0.n_split_samples
            * countTrue (densify_masks cfg0 kid rnd0 stC3 [(1 : ℚ)] [(1 : ℚ)] [(0 : ℚ)]).1
          + countTrue (densify_masks cfg0 kid rnd0 stC3 [(1 : ℚ)] [(1 : ℚ)] [(0 : ℚ)]).2 := by
  obtain ⟨st', he, -, hc, -⟩ :=
    densify_split_conservation cfg0 kid rnd0 stC3 [(1 : ℚ)] [(1 : ℚ)] [(0 : ℚ)] 1
      (by decide) (by decide) (by decide) (by decide)
      (by
        intro o ho
        simp only [stC3, List.mem_singleton] at ho
        subst ho
        norm_num [kid, cfg0])
      (by
        intro s hs
        simp only [stC3, List.mem_singleton] at hs
        subst hs
        norm_num [expV, maxAxis, kid, cfg0])
      (by
        intro s hs
        simp only [stC3, List.mem_singleton] at hs
        subst hs
        norm_num [shrinkScale, expV, logV, vdivc, maxAxis, size_fac, kid, cfg0])
      (by
        intro x hx
        simp only [stC3, List.mem_singleton] at hx
        subst hx
        norm_num [cfg0])
      (by norm_num [cfg0])
  exact ⟨st', he, hc⟩
